import Mathlib

/-!
Verification of the search-panel interaction and result-classification layer
of the e2e-demo repository (pages/base-search-page.ts, pages/admin-user-search-page.ts).

The page objects read a browser DOM through Playwright.  We embed the DOM
facts each method reads as a pure `Snapshot` record and translate every
method body into a pure Lean function over it.  JavaScript string methods
(toLowerCase, includes, trim) are embedded as ASCII-faithful Lean functions
over the character list of a string.  Playwright facts used by the model:
a locator built with a has-text filter matches elements whose text contains
the given needle case-insensitively, and element reads inside a try block
that raise are mapped to the catch result.
-/

/-- ASCII whitespace, the characters relevant to the style strings and
messages handled by the page objects. -/
def isWs (c : Char) : Bool := c = ' ' || c = '\t' || c = '\n' || c = '\r'

/-- ASCII embedding of the lower-casing used by JavaScript toLowerCase on
the characters appearing in this repository: uppercase ASCII letters map to
their lowercase forms, everything else is unchanged. -/
def lowerChar (c : Char) : Char :=
  if 65 ≤ c.toNat && c.toNat ≤ 90 then Char.ofNat (c.toNat + 32) else c

/-- Embedding of JavaScript String.prototype.toLowerCase. -/
def jsToLower (s : String) : String := String.mk (s.data.map lowerChar)

/-- Embedding of JavaScript String.prototype.trim (ASCII whitespace). -/
def jsTrim (s : String) : String :=
  String.mk (((s.data.dropWhile isWs).reverse.dropWhile isWs).reverse)

/-- Embedding of JavaScript String.prototype.includes: substring test. -/
def jsContains (s pat : String) : Bool :=
  (List.range (s.data.length + 1)).any (fun i => pat.data.isPrefixOf (s.data.drop i))

/-- A character list holds at least one non-whitespace character. -/
def hasNonWs (l : List Char) : Bool := l.any (fun c => !isWs c)

/-!
The DOM snapshot read by the page objects.  Each field records exactly the
DOM fact one of the translated methods queries through the automation
engine.  The no-records locator is built with a has-text filter, so the
element it may resolve to is modelled by the text of the candidate table
cell together with whether that cell is displayed.
-/

/-- UI state visible to the search page objects at one instant. -/
structure Snapshot where
  panelPresent : Bool
  panelStyle : Option String
  styleReadError : Bool
  toggleButtonVisible : Bool
  tableBodyVisible : Bool
  tableRowCount : Nat
  noRecordsCellText : Option String
  noRecordsCellShown : Bool
  toastVisible : Bool
  toastText : String
  errorToastVisible : Bool
  errorToastText : String
  usernameFieldError : Option String
  employeeNameFieldError : Option String
  textInputValues : List String

/-- Constant TIMEOUTS.SEARCH_RESULTS from utils/constants.ts. -/
def TIMEOUTS_SEARCH_RESULTS : Nat := 3000

/-- Constant TIMEOUTS.ELEMENT_WAIT from utils/constants.ts, the default
timeout of BasePage.waitForElement. -/
def TIMEOUTS_ELEMENT_WAIT : Nat := 10000

/-- Visibility of the no-records locator of BaseSearchPage: the locator
selects a results-area cell whose text contains the needle No Records Found
case-insensitively (Playwright has-text semantics), and isVisible further
requires the cell to be displayed. -/
def noRecordsMarkerVisible (s : Snapshot) : Bool :=
  s.noRecordsCellShown &&
    (match s.noRecordsCellText with
     | some t => jsContains (jsToLower t) "no records found"
     | none => false)

/-- BaseSearchPage.getToastMessage: the toast text when the toast element is
visible, otherwise the empty string.  AdminUserSearchPage.getToastMessage
overrides it with the same observable behaviour over this model. -/
def getToastMessage (s : Snapshot) : String :=
  if s.toastVisible then s.toastText else ""

/-- BaseSearchPage.hasSearchResults: the results table body is visible and
the no-records marker is not. -/
def hasSearchResults (s : Snapshot) : Bool :=
  s.tableBodyVisible && !(noRecordsMarkerVisible s)

/-- BaseSearchPage.hasNoRecordsFound: the in-table marker is visible, or the
toast message contains no records found after lower-casing. -/
def hasNoRecordsFound (s : Snapshot) : Bool :=
  noRecordsMarkerVisible s || jsContains (jsToLower (getToastMessage s)) "no records found"

/-- BaseSearchPage.isSearchPanelVisible, lines 65-92: absent element or an
engine error while reading the style yields false; a missing style
attribute yields true; otherwise the style must not contain display:none or
display: none after lower-casing. -/
def isSearchPanelVisible (s : Snapshot) : Bool :=
  if !s.panelPresent then false
  else if s.styleReadError then false
  else
    match s.panelStyle with
    | none => true
    | some st =>
      !(jsContains (jsToLower st) "display:none" || jsContains (jsToLower st) "display: none")

/-- BaseSearchPage.isSearchPanelHidden, lines 98-123: absent element or an
engine error yields true; a missing style attribute yields false; otherwise
the style must contain display:none or display: none after lower-casing. -/
def isSearchPanelHidden (s : Snapshot) : Bool :=
  if !s.panelPresent then true
  else if s.styleReadError then true
  else
    match s.panelStyle with
    | none => false
    | some st =>
      jsContains (jsToLower st) "display:none" || jsContains (jsToLower st) "display: none"

/-- BaseSearchPage.getSearchResultsCount: zero when the no-records marker is
visible, otherwise the number of table rows in the results body. -/
def getSearchResultsCount (s : Snapshot) : Nat :=
  if noRecordsMarkerVisible s then 0 else s.tableRowCount

/-- BaseSearchPage.verifyDefaultSearchState: every text input has a value
that is empty after trimming. -/
def verifyDefaultSearchState (s : Snapshot) : Bool :=
  s.textInputValues.all (fun v => jsTrim v == "")

/-!
AdminUserSearchPage (pages/admin-user-search-page.ts): admin-specific
overrides and helpers.
-/

/-- AdminUserSearchPage.isNoRecordsFoundDisplayed: the in-table marker is
visible, or the toast message contains no records found after
lower-casing. -/
def isNoRecordsFoundDisplayed (s : Snapshot) : Bool :=
  noRecordsMarkerVisible s || jsContains (jsToLower (getToastMessage s)) "no records found"

/-- AdminUserSearchPage.hasNoRecordsFound override, lines 876-879: forwards
to isNoRecordsFoundDisplayed. -/
def admin_hasNoRecordsFound (s : Snapshot) : Bool :=
  isNoRecordsFoundDisplayed s

/-- AdminUserSearchPage.hasSearchResults override, lines 884-896: no
no-records signal is displayed and the results table body has at least one
data row. -/
def admin_hasSearchResults (s : Snapshot) : Bool :=
  !(isNoRecordsFoundDisplayed s) && decide (0 < s.tableRowCount)

/-- AdminUserSearchPage.getSearchResultRowCount, lines 992-995: the raw
count of table rows in the results body. -/
def getSearchResultRowCount (s : Snapshot) : Nat :=
  s.tableRowCount

/-- BaseSearchPage.getFieldErrorMessage instantiated at the Username field:
the text of the visible field-error element, or the empty string. -/
def getFieldErrorMessageUsername (s : Snapshot) : String :=
  Option.getD s.usernameFieldError ""

/-- BaseSearchPage.getFieldErrorMessage instantiated at the Employee Name
field. -/
def getFieldErrorMessageEmployeeName (s : Snapshot) : String :=
  Option.getD s.employeeNameFieldError ""

/-- BaseSearchPage.hasFieldError instantiated at the Username field, as used
by AdminUserSearchPage.hasUsernameError. -/
def hasUsernameError (s : Snapshot) : Bool :=
  s.usernameFieldError.isSome

/-- BaseSearchPage.hasFieldError instantiated at the Employee Name field, as
used by AdminUserSearchPage.hasEmployeeNameError. -/
def hasEmployeeNameError (s : Snapshot) : Bool :=
  s.employeeNameFieldError.isSome

/-- AdminUserSearchPage.isErrorToastVisible. -/
def isErrorToastVisible (s : Snapshot) : Bool :=
  s.errorToastVisible

/-- AdminUserSearchPage.getErrorToastMessage: the error-toast text when that
toast is visible, otherwise the empty string. -/
def getErrorToastMessage (s : Snapshot) : String :=
  if s.errorToastVisible then s.errorToastText else ""

/-- First half of AdminUserSearchPage.getNoRecordsFoundMessage, lines
787-793: the trimmed marker-cell text when the marker is visible and its
text contains No Records Found with exact casing, else the empty string. -/
def noRecordsMessageFromMarker (s : Snapshot) : String :=
  if noRecordsMarkerVisible s then
    match s.noRecordsCellText with
    | some t => if t != "" && jsContains t "No Records Found" then jsTrim t else ""
    | none => ""
  else ""

/-- Second half of AdminUserSearchPage.getNoRecordsFoundMessage, lines
796-801: the trimmed toast text when the toast is visible and its
lower-cased text contains no records found, else the empty string. -/
def noRecordsMessageFromToast (s : Snapshot) : String :=
  if s.toastVisible then
    (if getToastMessage s != "" && jsContains (jsToLower (getToastMessage s)) "no records found"
     then jsTrim (getToastMessage s) else "")
  else ""

/-- AdminUserSearchPage.getNoRecordsFoundMessage, lines 784-804: prefer the
marker-based message; fall back to the toast-based message only when the
marker produced the empty string. -/
def getNoRecordsFoundMessage (s : Snapshot) : String :=
  if noRecordsMessageFromMarker s == "" then noRecordsMessageFromToast s
  else noRecordsMessageFromMarker s

/-- Push step of AdminUserSearchPage.getAllValidationErrors: a message is
appended, trimmed, when it is truthy and its trim is non-empty. -/
def pushIfNonBlank (l : List String) (msg : String) : List String :=
  if msg != "" && decide (0 < (jsTrim msg).length) then l ++ [jsTrim msg] else l

/-- AdminUserSearchPage.getAllValidationErrors, lines 842-871: the Username
field error, then the Employee Name field error, then the error-toast
message, each trimmed and appended only when non-blank. -/
def getAllValidationErrors (s : Snapshot) : List String :=
  let l1 := pushIfNonBlank [] (getFieldErrorMessageUsername s)
  let l2 := pushIfNonBlank l1 (getFieldErrorMessageEmployeeName s)
  if isErrorToastVisible s then pushIfNonBlank l2 (getErrorToastMessage s) else l2

/-- The Username contribution of getAllValidationErrors, in isolation. -/
def usernameErrorEntry (s : Snapshot) : List String :=
  pushIfNonBlank [] (getFieldErrorMessageUsername s)

/-- The Employee Name contribution of getAllValidationErrors, in
isolation. -/
def employeeNameErrorEntry (s : Snapshot) : List String :=
  pushIfNonBlank [] (getFieldErrorMessageEmployeeName s)

/-- The error-toast contribution of getAllValidationErrors, in isolation. -/
def toastErrorEntry (s : Snapshot) : List String :=
  if isErrorToastVisible s then pushIfNonBlank [] (getErrorToastMessage s) else []

/-- Search criteria record of AdminUserSearchPage.searchUsers. -/
structure Criteria where
  employeeName : Option String
  username : Option String
  userRole : Option String
  status : Option String

/-- JavaScript truthiness of an optional string: present and non-empty. -/
def truthy : Option String → Bool
  | none => false
  | some s => s != ""

/-- AdminUserSearchPage.validateSearchCriteria, lines 503-511: a field error
counts only when the corresponding criteria field is truthy. -/
def validateSearchCriteria (c : Criteria) (s : Snapshot) : Bool :=
  (if truthy c.employeeName then hasEmployeeNameError s else false)
  || (if truthy c.username then hasUsernameError s else false)

/-- Outcome of the submission step of searchUsers: either the method
returned before clicking the search button, or it clicked and submitted. -/
inductive SubmitAction where
  | shortCircuit
  | submitted

/-- AdminUserSearchPage.searchUsers, lines 528-548, applied to the snapshot
observed after the criteria fields were filled and the validation wait
elapsed: return without clicking when validateSearchCriteria reports an
error, otherwise click the search button. -/
def searchUsers (c : Criteria) (s : Snapshot) : SubmitAction :=
  if validateSearchCriteria c s then SubmitAction.shortCircuit else SubmitAction.submitted

/-!
The post-submission waits.  A Playwright wait on a condition fulfils at the
instant the condition becomes true when that happens within its budget, and
rejects when its budget expires first; a leg is modelled by the instant at
which its condition would become true, none when it never does.
Promise.race settles with the first leg to settle, fulfilled or rejected:
a leg that would fulfil later than another leg's rejection deadline loses
the race even though its own budget has not expired.  When a fulfilment and
a rejection would land at the same instant, the model lets the fulfilment
win; the counterexamples and the characterizations below do not depend on
this tie convention away from exact ties.
-/

/-- Resolution instants of the three awaited conditions: results table body
visible, no-records marker visible, toast message visible. -/
structure WaitLegs where
  resultsAt : Option Nat
  noRecordsAt : Option Nat
  toastAt : Option Nat

/-- A wait leg resolves when its condition becomes true within its budget. -/
def resolvesWithin : Option Nat → Nat → Bool
  | none, _ => false
  | some t, budget => decide (t ≤ budget)

/-- The instant at which a leg settles: its fulfilment instant when the
condition becomes true within the budget, otherwise the budget itself, the
instant the wait rejects. -/
def legSettleTime : Option Nat → Nat → Nat
  | none, budget => budget
  | some t, budget => min t budget

/-- Whether a leg fulfils rather than rejects: its condition becomes true
within its budget. -/
def legFulfils : Option Nat → Nat → Bool
  | none, _ => false
  | some t, budget => decide (t ≤ budget)

/-- Promise.race over the two legs of BaseSearchPage.waitForSearchResults,
both bounded by TIMEOUTS.SEARCH_RESULTS: the race fulfils when the earliest
settling leg is a fulfilment. -/
def basePromiseRaceFulfils (legs : WaitLegs) : Bool :=
  let t1 := legSettleTime legs.resultsAt TIMEOUTS_SEARCH_RESULTS
  let t2 := legSettleTime legs.noRecordsAt TIMEOUTS_SEARCH_RESULTS
  let tmin := min t1 t2
  (legFulfils legs.resultsAt TIMEOUTS_SEARCH_RESULTS && decide (t1 = tmin))
  || (legFulfils legs.noRecordsAt TIMEOUTS_SEARCH_RESULTS && decide (t2 = tmin))

/-- Promise.race over the three legs of
AdminUserSearchPage.waitForAdminSearchResults: the results-table and
no-records legs are bounded by TIMEOUTS.SEARCH_RESULTS while the toast leg
goes through waitForToastMessage and BasePage.waitForElement with its
default budget TIMEOUTS.ELEMENT_WAIT; the race fulfils when the earliest
settling leg is a fulfilment.  Because the two short legs reject at
TIMEOUTS.SEARCH_RESULTS, a toast that would fulfil later than that can
never win the race. -/
def promiseRaceFulfils (legs : WaitLegs) : Bool :=
  let t1 := legSettleTime legs.resultsAt TIMEOUTS_SEARCH_RESULTS
  let t2 := legSettleTime legs.noRecordsAt TIMEOUTS_SEARCH_RESULTS
  let t3 := legSettleTime legs.toastAt TIMEOUTS_ELEMENT_WAIT
  let tmin := min t1 (min t2 t3)
  (legFulfils legs.resultsAt TIMEOUTS_SEARCH_RESULTS && decide (t1 = tmin))
  || (legFulfils legs.noRecordsAt TIMEOUTS_SEARCH_RESULTS && decide (t2 = tmin))
  || (legFulfils legs.toastAt TIMEOUTS_ELEMENT_WAIT && decide (t3 = tmin))

/-- Result of BaseSearchPage.waitForSearchResults: returned at once on the
quick check, the race fulfilled, or the race rejection was caught and
logged. -/
inductive BaseWait where
  | immediate
  | raced
  | swallowed

/-- BaseSearchPage.waitForSearchResults, lines 170-189: quick check first,
then a Promise.race over two legs (results body, no-records marker), each
bounded by TIMEOUTS.SEARCH_RESULTS; a rejected race is caught and logged,
and the method returns normally. -/
def waitForSearchResults (s : Snapshot) (legs : WaitLegs) : BaseWait :=
  if hasSearchResults s || hasNoRecordsFound s then BaseWait.immediate
  else if basePromiseRaceFulfils legs then BaseWait.raced
  else BaseWait.swallowed

/-- Result of AdminUserSearchPage.waitForAdminSearchResults: returned at
once on the quick check, the race fulfilled, or the race rejection was
caught and the internal fallback sequence ran. -/
inductive AdminWait where
  | immediate
  | raced
  | fallback

/-- AdminUserSearchPage.waitForAdminSearchResults, lines 405-444: quick
check first, then the three-leg Promise.race of promiseRaceFulfils; a
rejected race is caught and the method runs its internal fallback sequence
and returns normally. -/
def waitForAdminSearchResults (s : Snapshot) (legs : WaitLegs) : AdminWait :=
  if admin_hasSearchResults s || admin_hasNoRecordsFound s then AdminWait.immediate
  else if promiseRaceFulfils legs then AdminWait.raced
  else AdminWait.fallback

/-!
Behaviour of the application under test that the repository only drives.
These definitions are the only ones not translated from repository code.
-/

/-- Modelled from the spec: the Reset button of the application under test
clears every search field (spec section 4.3 step semantics and testable
property 5); this behaviour lives in the external web application, not in
the repository.  BaseSearchPage.clickResetButton merely clicks it. -/
def clickResetButton (s : Snapshot) : Snapshot :=
  { s with textInputValues := s.textInputValues.map (fun _ => "") }

/-- BaseSearchPage.resetSearchCriteria, lines 373-376: click the reset
button, then wait a fixed delay, which reads no further state. -/
def resetSearchCriteria (s : Snapshot) : Snapshot :=
  clickResetButton s

/-- Modelled from the spec: clicking the filter-area toggle of the
application under test hides a shown panel by writing an inline
display: none style and shows a hidden one by removing it (spec sections
4.2 and 8.9); this behaviour lives in the external web application. -/
def appToggle (s : Snapshot) : Snapshot :=
  if isSearchPanelVisible s then { s with panelStyle := some "display: none;" }
  else { s with panelStyle := none }

/-- BaseSearchPage.toggleSearchPanel, lines 34-39: click the toggle when the
toggle button is visible, otherwise do nothing. -/
def toggleSearchPanel (s : Snapshot) : Snapshot :=
  if s.toggleButtonVisible then appToggle s else s

/-!
Spec-side definitions, written from the words of the specification alone,
used to compare the code with the claims that state a different rule.
-/

/-- Removes the whitespace that directly follows each colon. -/
def dropWsAfterColon : List Char → Bool → List Char
  | [], _ => []
  | c :: rest, skipping =>
    if skipping && isWs c then dropWsAfterColon rest true
    else if c = ':' then ':' :: dropWsAfterColon rest true
    else c :: dropWsAfterColon rest false

/-- Modelled from the spec, section 4.2 step 2: lower-case the style text
and strip the whitespace around each colon. -/
def normalizeStyle (s : String) : String :=
  let l1 := dropWsAfterColon (jsToLower s).data false
  String.mk ((dropWsAfterColon l1.reverse false).reverse)

/-- Modelled from the spec, section 4.2: the panel visibility oracle
isVisible on a style text; a null style is visible, and the style is hidden
exactly when its normalized form contains display:none. -/
def specIsVisible : Option String → Bool
  | none => true
  | some st => !(jsContains (normalizeStyle st) "display:none")

/-- Modelled from the spec, section 4.4 and claim C6: collect validation
errors with all field-level errors first in field-definition order, the
Employee Name field preceding the Username field as in the criteria record
and the fill order, followed by the transient notification error, skipping
blank entries. -/
def specCollectValidationErrors (s : Snapshot) : List String :=
  let l1 := pushIfNonBlank [] (getFieldErrorMessageEmployeeName s)
  let l2 := pushIfNonBlank l1 (getFieldErrorMessageUsername s)
  if isErrorToastVisible s then pushIfNonBlank l2 (getErrorToastMessage s) else l2

/-!
Concrete snapshots used by the counterexamples and witnesses.
-/

/-- A quiescent page: panel present without a style, nothing displayed in
the results area, no toasts, no field errors, no input values. -/
def emptySnapshot : Snapshot :=
  ⟨true, none, false, true, false, 0, none, false, false, "", false, "", none, none, []⟩

/-- Stale results markup plus a no-records toast plus a field error. -/
def cexStaleResults : Snapshot :=
  { emptySnapshot with
      tableBodyVisible := true, tableRowCount := 3,
      toastVisible := true, toastText := "No Records Found",
      usernameFieldError := some "Required" }

/-- Panel whose inline style spells display:none with a space before the
colon. -/
def cexSpacedStyle : Snapshot :=
  { emptySnapshot with panelStyle := some "display :none" }

/-- A visible Employee Name field error. -/
def cexEmployeeError : Snapshot :=
  { emptySnapshot with employeeNameFieldError := some "Invalid" }

/-- Criteria that search by username only. -/
def cexUsernameOnlyCriteria : Criteria :=
  ⟨none, some "john", none, none⟩

/-- In-table no-records cell whose text is lower-case. -/
def cexLowerMarker : Snapshot :=
  { emptySnapshot with noRecordsCellShown := true,
                       noRecordsCellText := some "no records found" }

/-- Visible errors on both search fields. -/
def cexTwoFieldErrors : Snapshot :=
  { emptySnapshot with usernameFieldError := some "Required",
                       employeeNameFieldError := some "Invalid" }

/-- No-records marker displayed inside a one-row results body. -/
def cexMarkerRow : Snapshot :=
  { emptySnapshot with noRecordsCellShown := true,
                       noRecordsCellText := some "No Records Found",
                       tableRowCount := 1 }

/-!
General lemmas about the embedded string operations.
-/

theorem char_ne_of_toNat {c d : Char} (h : c.toNat ≠ d.toNat) : c ≠ d :=
  fun he => h (by rw [he])

theorem isWs_eq_false_of_toNat {c : Char} (h1 : 65 ≤ c.toNat) : isWs c = false := by
  simp only [isWs, Bool.or_eq_false_iff, decide_eq_false_iff_not]
  have w1 : (' ' : Char).toNat = 32 := rfl
  have w2 : ('\t' : Char).toNat = 9 := rfl
  have w3 : ('\n' : Char).toNat = 10 := rfl
  have w4 : ('\r' : Char).toNat = 13 := rfl
  refine ⟨⟨⟨?_, ?_⟩, ?_⟩, ?_⟩
  · apply char_ne_of_toNat; rw [w1]; omega
  · apply char_ne_of_toNat; rw [w2]; omega
  · apply char_ne_of_toNat; rw [w3]; omega
  · apply char_ne_of_toNat; rw [w4]; omega

theorem isWs_lowerChar (c : Char) : isWs (lowerChar c) = isWs c := by
  unfold lowerChar
  split
  · rename_i h
    rw [Bool.and_eq_true, decide_eq_true_eq, decide_eq_true_eq] at h
    obtain ⟨h1, h2⟩ := h
    have hv : (c.toNat + 32).isValidChar := by
      unfold Nat.isValidChar; left; omega
    have htn : (Char.ofNat (c.toNat + 32)).toNat = c.toNat + 32 := by
      rw [Char.ofNat, dif_pos hv]; rfl
    have e1 : isWs (Char.ofNat (c.toNat + 32)) = false :=
      isWs_eq_false_of_toNat (by omega)
    have e2 : isWs c = false := isWs_eq_false_of_toNat h1
    rw [e1, e2]
  · rfl

theorem hasNonWs_map_lowerChar (l : List Char) :
    hasNonWs (l.map lowerChar) = hasNonWs l := by
  unfold hasNonWs
  rw [List.any_map]
  apply congrArg
  funext c
  rw [Function.comp_apply, isWs_lowerChar]

theorem hasNonWs_reverse (l : List Char) : hasNonWs l.reverse = hasNonWs l := by
  unfold hasNonWs
  rw [List.any_reverse]

theorem dropWhile_ne_nil_of_hasNonWs {l : List Char} (h : hasNonWs l = true) :
    l.dropWhile isWs ≠ [] := by
  induction l with
  | nil => simp [hasNonWs] at h
  | cons c t ih =>
    by_cases hc : isWs c
    · simp only [List.dropWhile_cons, hc, if_true]
      apply ih
      simp only [hasNonWs, List.any_cons, hc, Bool.not_true, Bool.false_or] at h
      exact h
    · simp [List.dropWhile_cons, hc]

theorem hasNonWs_dropWhile {l : List Char} (h : hasNonWs l = true) :
    hasNonWs (l.dropWhile isWs) = true := by
  induction l with
  | nil => simp [hasNonWs] at h
  | cons c t ih =>
    by_cases hc : isWs c
    · simp only [List.dropWhile_cons, hc, if_true]
      apply ih
      simp only [hasNonWs, List.any_cons, hc, Bool.not_true, Bool.false_or] at h
      exact h
    · rw [List.dropWhile_cons, if_neg (by simp [hc])]
      simp [hasNonWs, List.any_cons, hc]

theorem head_dropWhile_not_ws {l : List Char} {c : Char} {t : List Char}
    (h : l.dropWhile isWs = c :: t) : isWs c = false := by
  induction l with
  | nil => simp at h
  | cons a r ih =>
    by_cases ha : isWs a
    · simp only [List.dropWhile_cons, ha, if_true] at h
      exact ih h
    · simp only [List.dropWhile_cons, ha, if_false] at h
      cases h
      simp [ha]

theorem string_mk_ne_empty {l : List Char} (h : l ≠ []) : String.mk l ≠ "" := by
  intro he
  apply h
  have hd : (String.mk l).data = ("" : String).data := by rw [he]
  simpa using hd

theorem jsTrim_ne_empty_of_hasNonWs {s : String} (h : hasNonWs s.data = true) :
    jsTrim s ≠ "" := by
  unfold jsTrim
  apply string_mk_ne_empty
  have h1 : hasNonWs (s.data.dropWhile isWs) = true := hasNonWs_dropWhile h
  have h2 : hasNonWs (s.data.dropWhile isWs).reverse = true := by
    rw [hasNonWs_reverse]; exact h1
  have h3 : ((s.data.dropWhile isWs).reverse.dropWhile isWs) ≠ [] :=
    dropWhile_ne_nil_of_hasNonWs h2
  simpa using h3

theorem hasNonWs_of_jsContains {s pat : String} (hc : jsContains s pat = true)
    (hp : hasNonWs pat.data = true) : hasNonWs s.data = true := by
  unfold jsContains at hc
  rw [List.any_eq_true] at hc
  obtain ⟨i, _, hpre⟩ := hc
  rw [List.isPrefixOf_iff_prefix] at hpre
  unfold hasNonWs at hp ⊢
  rw [List.any_eq_true] at hp ⊢
  obtain ⟨c, hmem, hcws⟩ := hp
  exact ⟨c, List.mem_of_mem_drop (hpre.subset hmem), hcws⟩

theorem hasNonWs_jsTrim_data {s : String} (h : jsTrim s ≠ "") :
    hasNonWs (jsTrim s).data = true := by
  unfold jsTrim at h ⊢
  rcases he : (s.data.dropWhile isWs).reverse.dropWhile isWs with _ | ⟨c, t⟩
  · exfalso; apply h; rw [he]; rfl
  · have hcws : isWs c = false := head_dropWhile_not_ws he
    simp [hasNonWs, List.any_reverse, List.any_cons, hcws]

theorem string_ne_empty_of_data {s : String} (h : s.data ≠ []) : s ≠ "" := by
  intro he
  apply h
  rw [he]

theorem hasNonWs_toLower {s : String} (h : hasNonWs (jsToLower s).data = true) :
    hasNonWs s.data = true := by
  unfold jsToLower at h
  rw [show (String.mk (s.data.map lowerChar)).data = s.data.map lowerChar from rfl,
      hasNonWs_map_lowerChar] at h
  exact h

theorem string_bne_of_ne {s : String} (h : s ≠ "") : (s != "") = true := by
  simp [bne_iff_ne, h]

/-!
Claim C2: panel visibility from the style string.
-/

/-- C2 counterexample: the style display :none, a spacing variant of
display:none with a space before the colon, contains display:none after
the normalization the claim prescribes, so the claim requires the panel to
be reported hidden; the code reports it visible. -/
theorem C2_counterexample :
    cexSpacedStyle.panelStyle = some "display :none" ∧
    specIsVisible (some "display :none") = false ∧
    isSearchPanelVisible cexSpacedStyle = true := by
  refine ⟨rfl, by decide, by decide⟩

/-- C2 (amended): for a present panel read without an engine error, the
code reports the panel hidden exactly when the lower-cased style contains
one of the two literal spellings display:none or display: none; other
whitespace variants around the colon, and the absent style, are reported
visible.  The claimed general normalization of whitespace around the colon
is not performed. -/
theorem C2_style_visibility_characterization (s : Snapshot)
    (hp : s.panelPresent = true) (he : s.styleReadError = false) :
    isSearchPanelVisible s = false ↔
      ∃ st, s.panelStyle = some st ∧
        (jsContains (jsToLower st) "display:none" = true ∨
         jsContains (jsToLower st) "display: none" = true) := by
  unfold isSearchPanelVisible
  rcases hst : s.panelStyle with _ | st
  · simp [hp, he, hst]
  · cases h1 : jsContains (jsToLower st) "display:none" <;>
      cases h2 : jsContains (jsToLower st) "display: none" <;>
        simp [hp, he, hst, h1, h2]

/-- C2 witness: the characterization applied to a concrete hidden panel. -/
theorem C2_style_visibility_witness :
    isSearchPanelVisible
      { emptySnapshot with panelStyle := some "display:none" } = false :=
  (C2_style_visibility_characterization
      { emptySnapshot with panelStyle := some "display:none" } rfl rfl).mpr
    ⟨"display:none", rfl, Or.inl (by decide)⟩

/-!
Claim C3: pre-submission validation short-circuit of searchUsers.
-/

/-- C3 counterexample: an Employee Name field error is present before the
search is triggered, but the criteria only name the username, so
searchUsers clicks the search button anyway instead of returning a
validation-error outcome. -/
theorem C3_counterexample :
    hasEmployeeNameError cexEmployeeError = true ∧
    searchUsers cexUsernameOnlyCriteria cexEmployeeError = SubmitAction.submitted ∧
    SubmitAction.submitted ≠ SubmitAction.shortCircuit :=
  ⟨rfl, rfl, fun h => SubmitAction.noConfusion h⟩

/-- C3 (amended): searchUsers short-circuits without clicking the search
button exactly when a field-level validation error is present on a field
that the criteria fill with a truthy value; an error on a field absent
from the criteria does not prevent submission. -/
theorem C3_searchUsers_shortCircuit (c : Criteria) (s : Snapshot) :
    searchUsers c s = SubmitAction.shortCircuit ↔
      ((truthy c.employeeName = true ∧ hasEmployeeNameError s = true) ∨
       (truthy c.username = true ∧ hasUsernameError s = true)) := by
  unfold searchUsers validateSearchCriteria
  cases he : truthy c.employeeName <;> cases hu : truthy c.username <;>
    cases hee : hasEmployeeNameError s <;> cases hue : hasUsernameError s <;>
      simp [he, hu, hee, hue]

/-- C3 witness: the short-circuit characterization applied to criteria that
do name the erroneous field. -/
theorem C3_searchUsers_witness :
    searchUsers ⟨some "Invalid Name", none, none, none⟩ cexEmployeeError =
      SubmitAction.shortCircuit :=
  (C3_searchUsers_shortCircuit ⟨some "Invalid Name", none, none, none⟩
      cexEmployeeError).mpr (Or.inl ⟨by decide, rfl⟩)

/-!
Claim C7: row-count reporting.
-/

/-- C7 counterexample: with the no-records marker displayed inside a
one-row results body, the admin row counter reports 1, not the 0 the claim
requires whenever the marker is visible. -/
theorem C7_counterexample :
    noRecordsMarkerVisible cexMarkerRow = true ∧
    getSearchResultRowCount cexMarkerRow = 1 ∧
    (1 : Nat) ≠ 0 :=
  ⟨by decide, rfl, by decide⟩

/-- C7 (amended): the base counter getSearchResultsCount reports 0 whenever
the no-records marker is visible and the actual row count otherwise; the
admin counter getSearchResultRowCount always reports the actual row count,
including when the marker is visible; and a snapshot with at least one row
and no no-records signal is classified as having results. -/
theorem C7_row_count_reporting (s : Snapshot) :
    (noRecordsMarkerVisible s = true → getSearchResultsCount s = 0) ∧
    (noRecordsMarkerVisible s = false → getSearchResultsCount s = s.tableRowCount) ∧
    getSearchResultRowCount s = s.tableRowCount ∧
    (isNoRecordsFoundDisplayed s = false → 0 < s.tableRowCount →
      admin_hasSearchResults s = true) := by
  refine ⟨?_, ?_, rfl, ?_⟩
  · intro h
    unfold getSearchResultsCount
    rw [h]
    rfl
  · intro h
    unfold getSearchResultsCount
    rw [h]
    rfl
  · intro hn hr
    unfold admin_hasSearchResults
    rw [hn]
    simp [hr]

/-- C7 witness: the reporting rules applied to a concrete marker snapshot
and a concrete two-row snapshot. -/
theorem C7_row_count_witness :
    getSearchResultsCount cexMarkerRow = 0 ∧
    admin_hasSearchResults { emptySnapshot with tableRowCount := 2 } = true :=
  ⟨(C7_row_count_reporting cexMarkerRow).1 (by decide),
   (C7_row_count_reporting { emptySnapshot with tableRowCount := 2 }).2.2.2
     (by decide) (by decide)⟩

/-!
Claim C8: reset clears the search criteria.
-/

/-- C8: after resetSearchCriteria, verifyDefaultSearchState holds for every
prior snapshot, hence regardless of the outcome the previous submission
produced; the Reset button behaviour itself is modelled from the spec since
it belongs to the application under test. -/
theorem C8_reset_gives_default_state (s : Snapshot) :
    verifyDefaultSearchState (resetSearchCriteria s) = true := by
  unfold verifyDefaultSearchState resetSearchCriteria clickResetButton
  rw [List.all_eq_true]
  intro v hv
  rw [List.mem_map] at hv
  obtain ⟨w, _, he⟩ := hv
  rw [← he]
  rfl

/-!
Claim C10: visibility and hiddenness are exact complements.
-/

/-- C10: isSearchPanelHidden is the exact Boolean complement of
isSearchPanelVisible on every snapshot; an absent panel element is reported
not visible and hidden, and an engine error while reading the style is
caught, defaulting to not visible and hidden. -/
theorem C10_visible_hidden_complement (s : Snapshot) :
    isSearchPanelHidden s = !(isSearchPanelVisible s) ∧
    (s.panelPresent = false →
      isSearchPanelVisible s = false ∧ isSearchPanelHidden s = true) ∧
    (s.styleReadError = true →
      isSearchPanelVisible s = false ∧ isSearchPanelHidden s = true) := by
  unfold isSearchPanelVisible isSearchPanelHidden
  cases hp : s.panelPresent <;> cases he : s.styleReadError <;>
    rcases hst : s.panelStyle with _ | st <;> simp [hp, he, hst]

/-- C10 witness: the complement defaults applied to an absent panel and to
an erroring style read. -/
theorem C10_complement_witness :
    isSearchPanelVisible { emptySnapshot with panelPresent := false } = false ∧
    isSearchPanelHidden { emptySnapshot with styleReadError := true } = true :=
  ⟨((C10_visible_hidden_complement
      { emptySnapshot with panelPresent := false }).2.1 rfl).1,
   ((C10_visible_hidden_complement
      { emptySnapshot with styleReadError := true }).2.2 rfl).2⟩

/-!
Claim C1: outcome classification exclusivity and precedence.
-/

/-- C1 counterexample: one snapshot with stale results markup, a no-records
toast, and a visible validation error makes the base classifiers report
results and no-records at the same time, with no validation-error
pre-emption. -/
theorem C1_counterexample :
    hasSearchResults cexStaleResults = true ∧
    hasNoRecordsFound cexStaleResults = true ∧
    hasUsernameError cexStaleResults = true := by
  refine ⟨by decide, by decide, rfl⟩

/-- C1 (amended): the admin override is mutually exclusive, results implying
no no-records signal; the base classifiers are mutually exclusive only when
the toast does not report no-records; neither classifier consults
validation errors, so the pre-emption the claim states does not hold at the
snapshot level. -/
theorem C1_classifier_exclusivity (s : Snapshot) :
    (admin_hasSearchResults s = true → admin_hasNoRecordsFound s = false) ∧
    (jsContains (jsToLower (getToastMessage s)) "no records found" = false →
      ¬(hasSearchResults s = true ∧ hasNoRecordsFound s = true)) := by
  constructor
  · intro h
    unfold admin_hasSearchResults at h
    rw [Bool.and_eq_true, Bool.not_eq_true'] at h
    exact h.1
  · intro ht h
    obtain ⟨h1, h2⟩ := h
    unfold hasSearchResults at h1
    unfold hasNoRecordsFound at h2
    rw [ht, Bool.or_false] at h2
    rw [Bool.and_eq_true, Bool.not_eq_true'] at h1
    rw [h2] at h1
    exact Bool.noConfusion h1.2

/-- C1 witness: the exclusivity facts applied to a two-row results snapshot
with no toast. -/
theorem C1_exclusivity_witness :
    admin_hasNoRecordsFound { emptySnapshot with tableRowCount := 2 } = false ∧
    ¬(hasSearchResults { emptySnapshot with tableRowCount := 2 } = true ∧
      hasNoRecordsFound { emptySnapshot with tableRowCount := 2 } = true) :=
  ⟨(C1_classifier_exclusivity { emptySnapshot with tableRowCount := 2 }).1 (by decide),
   (C1_classifier_exclusivity { emptySnapshot with tableRowCount := 2 }).2 (by decide)⟩

/-!
Claim C4: the post-submission race and its budgets.
-/

theorem promiseRaceFulfils_eq (legs : WaitLegs) :
    promiseRaceFulfils legs =
      (resolvesWithin legs.resultsAt TIMEOUTS_SEARCH_RESULTS
       || resolvesWithin legs.noRecordsAt TIMEOUTS_SEARCH_RESULTS
       || resolvesWithin legs.toastAt TIMEOUTS_SEARCH_RESULTS) := by
  rcases legs with ⟨r, n, t⟩
  rcases r with _ | rv <;> rcases n with _ | nv <;> rcases t with _ | tv <;>
    (rw [Bool.eq_iff_iff]
     simp only [promiseRaceFulfils, legSettleTime, legFulfils, resolvesWithin,
       TIMEOUTS_SEARCH_RESULTS, TIMEOUTS_ELEMENT_WAIT, Bool.or_eq_true,
       Bool.and_eq_true, decide_eq_true_eq, Bool.false_and, Bool.false_or,
       Bool.or_false, Bool.false_eq_true, false_and, false_or, or_false]
     try omega)

theorem basePromiseRaceFulfils_eq (legs : WaitLegs) :
    basePromiseRaceFulfils legs =
      (resolvesWithin legs.resultsAt TIMEOUTS_SEARCH_RESULTS
       || resolvesWithin legs.noRecordsAt TIMEOUTS_SEARCH_RESULTS) := by
  rcases legs with ⟨r, n, t⟩
  rcases r with _ | rv <;> rcases n with _ | nv <;>
    (rw [Bool.eq_iff_iff]
     simp only [basePromiseRaceFulfils, legSettleTime, legFulfils, resolvesWithin,
       TIMEOUTS_SEARCH_RESULTS, Bool.or_eq_true, Bool.and_eq_true,
       decide_eq_true_eq, Bool.false_and, Bool.false_or, Bool.or_false,
       Bool.false_eq_true, false_and, false_or, or_false]
     try omega)

/-- C4 counterexample: a toast whose condition becomes true at 5000 ms is
within its own leg budget but loses the race to the 3000 ms rejections of
the results and no-records legs, so the admin wait runs its internal
fallback; with no leg resolving at all, the fallback runs instead of a
Timeout being surfaced to the caller; and the base wait ignores even an
instantly available toast because it races only two conditions. -/
theorem C4_counterexample :
    waitForAdminSearchResults emptySnapshot ⟨none, none, some 5000⟩ = AdminWait.fallback ∧
    resolvesWithin (some 5000) TIMEOUTS_ELEMENT_WAIT = true ∧
    waitForAdminSearchResults emptySnapshot ⟨none, none, none⟩ = AdminWait.fallback ∧
    waitForSearchResults emptySnapshot ⟨none, none, some 0⟩ = BaseWait.swallowed := by
  refine ⟨rfl, by decide, rfl, rfl⟩

/-- C4 (amended): past the quick check, the admin wait is a Promise.race of
three legs in which the results and no-records legs reject at
TIMEOUTS.SEARCH_RESULTS (3000 ms), so the race fulfils exactly when one of
the three conditions becomes true within 3000 ms — the toast leg's own
TIMEOUTS.ELEMENT_WAIT budget never extends the race; when no condition
makes that bound, the race rejection is caught and the internal fallback
runs, so no Timeout reaches the caller; and the base wait reads only the
results and no-records legs. -/
theorem C4_race_characterization (s : Snapshot) (legs : WaitLegs)
    (hq : (admin_hasSearchResults s || admin_hasNoRecordsFound s) = false) :
    (waitForAdminSearchResults s legs = AdminWait.raced ↔
      (resolvesWithin legs.resultsAt TIMEOUTS_SEARCH_RESULTS
       || resolvesWithin legs.noRecordsAt TIMEOUTS_SEARCH_RESULTS
       || resolvesWithin legs.toastAt TIMEOUTS_SEARCH_RESULTS) = true) ∧
    (waitForAdminSearchResults s legs = AdminWait.fallback ↔
      (resolvesWithin legs.resultsAt TIMEOUTS_SEARCH_RESULTS
       || resolvesWithin legs.noRecordsAt TIMEOUTS_SEARCH_RESULTS
       || resolvesWithin legs.toastAt TIMEOUTS_SEARCH_RESULTS) = false) ∧
    (∀ t1 t2 : Option Nat,
      waitForSearchResults s ⟨legs.resultsAt, legs.noRecordsAt, t1⟩ =
        waitForSearchResults s ⟨legs.resultsAt, legs.noRecordsAt, t2⟩) := by
  refine ⟨?_, ?_, ?_⟩
  · unfold waitForAdminSearchResults
    rw [hq, promiseRaceFulfils_eq]
    cases hr : (resolvesWithin legs.resultsAt TIMEOUTS_SEARCH_RESULTS
       || resolvesWithin legs.noRecordsAt TIMEOUTS_SEARCH_RESULTS
       || resolvesWithin legs.toastAt TIMEOUTS_SEARCH_RESULTS) <;> simp [hr]
  · unfold waitForAdminSearchResults
    rw [hq, promiseRaceFulfils_eq]
    cases hr : (resolvesWithin legs.resultsAt TIMEOUTS_SEARCH_RESULTS
       || resolvesWithin legs.noRecordsAt TIMEOUTS_SEARCH_RESULTS
       || resolvesWithin legs.toastAt TIMEOUTS_SEARCH_RESULTS) <;> simp [hr]
  · intro t1 t2
    rfl

/-- C4 witness: the race characterization applied to a quiescent snapshot
with a results leg resolving at 100 ms. -/
theorem C4_race_witness :
    waitForAdminSearchResults emptySnapshot ⟨some 100, none, none⟩ = AdminWait.raced :=
  ((C4_race_characterization emptySnapshot ⟨some 100, none, none⟩ (by decide)).1).mpr
    (by decide)

/-!
Claim C9: the panel toggle is an involution on visibility.
-/

/-- C9: from a snapshot whose panel is visible and whose toggle button is
visible, one toggle makes the panel report hidden and a second toggle makes
it report visible again; the display-style flip performed by the
application on a toggle click is modelled from the spec. -/
theorem C9_toggle_involution (s : Snapshot)
    (hb : s.toggleButtonVisible = true)
    (hv : isSearchPanelVisible s = true) :
    isSearchPanelVisible (toggleSearchPanel s) = false ∧
    isSearchPanelVisible (toggleSearchPanel (toggleSearchPanel s)) = true := by
  obtain ⟨p, pstyle, err, tgl, tbv, trc, nrt, nrs, tv, tt, etv, ett, ue, ee, tiv⟩ := s
  replace hb : tgl = true := hb
  subst hb
  cases p with
  | false => exact Bool.noConfusion hv
  | true =>
    cases err with
    | true => exact Bool.noConfusion hv
    | false =>
      have hstep :
          toggleSearchPanel
            ⟨true, pstyle, false, true, tbv, trc, nrt, nrs, tv, tt, etv, ett, ue, ee, tiv⟩ =
          ⟨true, some "display: none;", false, true, tbv, trc, nrt, nrs, tv, tt, etv, ett,
            ue, ee, tiv⟩ := by
        unfold toggleSearchPanel appToggle
        rw [hv]
        rfl
      rw [hstep]
      exact ⟨rfl, rfl⟩

/-- C9 witness: the involution applied to the quiescent visible panel. -/
theorem C9_toggle_witness :
    isSearchPanelVisible (toggleSearchPanel emptySnapshot) = false ∧
    isSearchPanelVisible (toggleSearchPanel (toggleSearchPanel emptySnapshot)) = true :=
  C9_toggle_involution emptySnapshot rfl (by decide)

/-!
Claim C5: no-records verdict and message.
-/

/-- C5 counterexample: a displayed in-table cell reading no records found in
lower case satisfies the case-insensitive locator, so the verdict is
NoRecords, but the message extractor demands the exact casing No Records
Found and returns the empty string. -/
theorem C5_counterexample :
    admin_hasNoRecordsFound cexLowerMarker = true ∧
    getNoRecordsFoundMessage cexLowerMarker = "" := by
  refine ⟨by decide, rfl⟩

/-- C5 (amended): the no-records verdict is the disjunction of the in-table
marker and the no-records toast, either signal alone sufficing; the
reported message is non-empty whenever the marker text contains No Records
Found with exact casing, or the toast contains the phrase in any casing;
a marker matched only case-insensitively yields an empty message. -/
theorem C5_noRecords_signals (s : Snapshot) :
    (noRecordsMarkerVisible s = true → admin_hasNoRecordsFound s = true) ∧
    (jsContains (jsToLower (getToastMessage s)) "no records found" = true →
      admin_hasNoRecordsFound s = true) ∧
    (∀ t, s.noRecordsCellText = some t → noRecordsMarkerVisible s = true →
      jsContains t "No Records Found" = true → getNoRecordsFoundMessage s ≠ "") ∧
    (s.toastVisible = true →
      jsContains (jsToLower s.toastText) "no records found" = true →
      getNoRecordsFoundMessage s ≠ "") := by
  refine ⟨?_, ?_, ?_, ?_⟩
  · intro h
    unfold admin_hasNoRecordsFound isNoRecordsFoundDisplayed
    rw [h]
    rfl
  · intro h
    unfold admin_hasNoRecordsFound isNoRecordsFoundDisplayed
    rw [h]
    simp
  · intro t hct hmv hjc
    have hnw : hasNonWs t.data = true := hasNonWs_of_jsContains hjc (by decide)
    have hne : t ≠ "" := by
      intro h0
      rw [h0] at hnw
      exact Bool.noConfusion hnw
    have htrim : jsTrim t ≠ "" := jsTrim_ne_empty_of_hasNonWs hnw
    have hm : noRecordsMessageFromMarker s = jsTrim t := by
      unfold noRecordsMessageFromMarker
      rw [hmv, hct]
      show (if (t != "" && jsContains t "No Records Found") = true then jsTrim t else "") =
        jsTrim t
      rw [string_bne_of_ne hne, hjc]
      rfl
    unfold getNoRecordsFoundMessage
    rw [hm, if_neg (by simp [htrim])]
    exact htrim
  · intro htv hjc
    have hnw : hasNonWs s.toastText.data = true :=
      hasNonWs_toLower (hasNonWs_of_jsContains hjc (by decide))
    have hne : s.toastText ≠ "" := by
      intro h0
      rw [h0] at hnw
      exact Bool.noConfusion hnw
    have htrim : jsTrim s.toastText ≠ "" := jsTrim_ne_empty_of_hasNonWs hnw
    have hgt : getToastMessage s = s.toastText := by
      unfold getToastMessage
      rw [htv]
      rfl
    have htoastMsg : noRecordsMessageFromToast s = jsTrim s.toastText := by
      unfold noRecordsMessageFromToast
      rw [htv]
      show (if (getToastMessage s != ""
          && jsContains (jsToLower (getToastMessage s)) "no records found") = true
        then jsTrim (getToastMessage s) else "") = jsTrim s.toastText
      rw [hgt, string_bne_of_ne hne, hjc]
      rfl
    unfold getNoRecordsFoundMessage
    cases hmk : (noRecordsMessageFromMarker s == "") with
    | true =>
      rw [if_pos rfl, htoastMsg]
      exact htrim
    | false =>
      rw [if_neg (fun h => Bool.noConfusion h)]
      intro h0
      rw [h0] at hmk
      exact Bool.noConfusion hmk
  
/-- C5 witness: the verdict and non-empty message applied to an exact-case
marker snapshot. -/
theorem C5_noRecords_witness :
    admin_hasNoRecordsFound cexMarkerRow = true ∧
    getNoRecordsFoundMessage cexMarkerRow ≠ "" :=
  ⟨(C5_noRecords_signals cexMarkerRow).1 (by decide),
   (C5_noRecords_signals cexMarkerRow).2.2.1 "No Records Found" rfl (by decide) (by decide)⟩

/-!
Claim C6: validation-error collection order and blanks.
-/

theorem mem_pushIfNonBlank_nil {m msg : String} (h : m ∈ pushIfNonBlank [] msg) :
    jsTrim m ≠ "" := by
  unfold pushIfNonBlank at h
  split at h
  · rename_i hc
    rw [Bool.and_eq_true, decide_eq_true_eq] at hc
    simp only [List.nil_append, List.mem_singleton] at h
    subst h
    have hne : jsTrim msg ≠ "" := by
      intro h0
      rw [h0] at hc
      simp at hc
    exact jsTrim_ne_empty_of_hasNonWs (hasNonWs_jsTrim_data hne)
  · simp at h

theorem getAllValidationErrors_decompose (s : Snapshot) :
    getAllValidationErrors s =
      usernameErrorEntry s ++ employeeNameErrorEntry s ++ toastErrorEntry s := by
  cases h1 : (getFieldErrorMessageUsername s != ""
      && decide (0 < (jsTrim (getFieldErrorMessageUsername s)).length)) <;>
    cases h2 : (getFieldErrorMessageEmployeeName s != ""
        && decide (0 < (jsTrim (getFieldErrorMessageEmployeeName s)).length)) <;>
      cases h3 : isErrorToastVisible s <;>
        cases h4 : (getErrorToastMessage s != ""
            && decide (0 < (jsTrim (getErrorToastMessage s)).length)) <;>
          simp [getAllValidationErrors, usernameErrorEntry, employeeNameErrorEntry,
            toastErrorEntry, pushIfNonBlank, h1, h2, h3, h4]

/-- C6 counterexample: with errors on both fields, the code collects the
Username error before the Employee Name error, while the claim prescribes
field-definition order, Employee Name first as in the criteria record and
the fill order. -/
theorem C6_counterexample :
    getAllValidationErrors cexTwoFieldErrors = ["Required", "Invalid"] ∧
    specCollectValidationErrors cexTwoFieldErrors = ["Invalid", "Required"] ∧
    getAllValidationErrors cexTwoFieldErrors ≠
      specCollectValidationErrors cexTwoFieldErrors := by
  refine ⟨rfl, rfl, by decide⟩

/-- C6 (amended): the collected list is the Username field error followed by
the Employee Name field error followed by the error-toast message, the
reverse of field-definition order for the two field errors, with the toast
last as claimed; every collected entry is trimmed and no entry is empty or
whitespace-only. -/
theorem C6_validation_error_collection (s : Snapshot) :
    getAllValidationErrors s =
      usernameErrorEntry s ++ employeeNameErrorEntry s ++ toastErrorEntry s ∧
    ∀ m ∈ getAllValidationErrors s, jsTrim m ≠ "" := by
  refine ⟨getAllValidationErrors_decompose s, ?_⟩
  intro m hm
  rw [getAllValidationErrors_decompose s] at hm
  rcases List.mem_append.mp hm with hm12 | hm3
  · rcases List.mem_append.mp hm12 with hmu | hme
    · exact mem_pushIfNonBlank_nil hmu
    · exact mem_pushIfNonBlank_nil hme
  · unfold toastErrorEntry at hm3
    split at hm3
    · exact mem_pushIfNonBlank_nil hm3
    · simp at hm3

/-- C6 witness: the collection facts applied to a single padded field
error. -/
theorem C6_collection_witness :
    jsTrim "Bad" ≠ "" :=
  (C6_validation_error_collection
      { emptySnapshot with usernameFieldError := some " Bad " }).2 "Bad" (by decide)
